import Mathlib

/-!
Shallow embedding of `dump-nimbus-db` (src/src/main.rs), a read-only dumper
for a Nimbus rkv store.  The storage backend, terminal rendering and process
argument handling are out of scope; we embed the decode layer
(`ValueExt::as_json`, `SingleStoreExt::get_as_json`), the schema-version
resolver inside `dump_meta`, and the three table readers
(`dump_enrollments`, `dump_experiments`, `dump_updates`).

JSON texts are modelled by their parse outcome: `JsonText.parseable j` is a
text that parses to the document `j`, `JsonText.malformed` one that does not.
Likewise raw keys are modelled by their UTF-8 decode outcome.  Serde-derived
deserializers are embedded as functions on the parsed document: struct
decoding looks required fields up by name and ignores unknown fields
(serde default), duplicated known fields are an error, and the externally
tagged `EnrollmentStatus` enum requires an object with a single key whose
tag must be one of the five variants.  When a payload has several faults the
embedded decoder may report a different fault than serde does, but it
succeeds exactly when serde succeeds and agrees on the decoded value.
-/

namespace DumpNimbus

/-- Parsed JSON documents.  `frac` stands for any number that is not an
integer (serde_json parses such numbers as f64; no decoder in this program
accepts one, so its value is irrelevant to every modelled behavior). -/
inductive Json where
  | null
  | bool (b : Bool)
  | int (i : Int)
  | frac
  | str (s : String)
  | arr (elems : List Json)
  | obj (fields : List (String × Json))

/-- A stored JSON text, modelled by its parse outcome. -/
inductive JsonText where
  | parseable (j : Json)
  | malformed

/-- The rkv `Value` tagged union (`rkv::Value`); only the `Json` variant is
accepted by `as_json`, all others hit the `anyhow::bail!("Unsupported type")`
arm. -/
inductive Value where
  | bool (b : Bool)
  | u64 (n : Nat)
  | i64 (i : Int)
  | f64
  | instant (i : Int)
  | uuid (bytes : List Nat)
  | str (s : String)
  | json (t : JsonText)
  | blob (bytes : List Nat)

/-- Decode failures of the JSON layer.  `unsupportedType` is the
`anyhow::bail!("Unsupported type")` of `ValueExt::as_json`; `malformedJson`
a serde_json parse error; the rest are serde structural errors. -/
inductive DecodeError where
  | unsupportedType
  | malformedJson
  | missing (field : String)
  | duplicate (field : String)
  | unknownVariant (tag : String)
  | typeMismatch (expected : String)
  | invalidValue (expected : String)

/-- A raw store key, modelled by its UTF-8 decode outcome (`str::from_utf8`);
distinct non-text keys are told apart by an id. -/
inductive RawKey where
  | text (s : String)
  | nonText (id : Nat)

/-- A single store: the finite sequence of entries `iter_start` yields, in
store order. -/
abbrev Table := List (RawKey × Value)

/-- Look a required struct field up among the object entries: absent is a
serde missing-field error, present twice a duplicate-field error; entries
under other names are ignored (serde default for unknown fields). -/
def getField (kvs : List (String × Json)) (name : String) :
    Except DecodeError Json :=
  match kvs.filter (fun p => p.1 == name) with
  | [] => .error (.missing name)
  | [p] => .ok p.2
  | _ => .error (.duplicate name)

/-- serde deserialization of `String` from JSON. -/
def asStr : Json → Except DecodeError String
  | .str s => .ok s
  | _ => .error (.typeMismatch "string")

/-- serde deserialization of `bool` from JSON. -/
def asBool : Json → Except DecodeError Bool
  | .bool b => .ok b
  | _ => .error (.typeMismatch "bool")

/-- serde deserialization of `u16` from JSON: only integral numbers in
`0..=65535` are accepted (a negative integer is the `negSucc` case). -/
def asU16 : Json → Except DecodeError Nat
  | .int (.ofNat n) =>
    if n < 65536 then .ok n else .error (.invalidValue "u16")
  | .int (.negSucc _) => .error (.invalidValue "u16")
  | _ => .error (.typeMismatch "u16")

/-- serde deserialization of `u64` from JSON: only integral numbers in
`0..=2^64-1` are accepted (a negative integer is the `negSucc` case). -/
def asU64 : Json → Except DecodeError Nat
  | .int (.ofNat n) =>
    if n < 18446744073709551616 then .ok n
    else .error (.invalidValue "u64")
  | .int (.negSucc _) => .error (.invalidValue "u64")
  | _ => .error (.typeMismatch "u64")

/-- serde deserialization of `Vec<String>` from JSON. -/
def asStrList : Json → Except DecodeError (List String)
  | .arr xs => xs.mapM asStr
  | _ => .error (.typeMismatch "sequence")

/-- `EnrollmentStatus` (main.rs:114), a closed five-variant enum. -/
inductive EnrollmentStatus where
  | enrolled (reason branch : String)
  | notEnrolled (reason : String)
  | disqualified (reason branch : String)
  | wasEnrolled (branch : String) (experiment_ended_at : Nat)
  | error (reason : String)

/-- Derived deserializer for `EnrollmentStatus`: externally tagged, so the
payload must be an object with a single key naming one of the five variants;
any other tag is an unknown-variant error, never a default shape. -/
def decodeEnrollmentStatus : Json → Except DecodeError EnrollmentStatus
  | .obj [(tag, body)] =>
    if tag = "Enrolled" then
      match body with
      | .obj kvs => do
          let reason ← getField kvs "reason" >>= asStr
          let branch ← getField kvs "branch" >>= asStr
          .ok (.enrolled reason branch)
      | _ => .error (.typeMismatch "struct variant Enrolled")
    else if tag = "NotEnrolled" then
      match body with
      | .obj kvs => do
          let reason ← getField kvs "reason" >>= asStr
          .ok (.notEnrolled reason)
      | _ => .error (.typeMismatch "struct variant NotEnrolled")
    else if tag = "Disqualified" then
      match body with
      | .obj kvs => do
          let reason ← getField kvs "reason" >>= asStr
          let branch ← getField kvs "branch" >>= asStr
          .ok (.disqualified reason branch)
      | _ => .error (.typeMismatch "struct variant Disqualified")
    else if tag = "WasEnrolled" then
      match body with
      | .obj kvs => do
          let branch ← getField kvs "branch" >>= asStr
          let endedAt ← getField kvs "experiment_ended_at" >>= asU64
          .ok (.wasEnrolled branch endedAt)
      | _ => .error (.typeMismatch "struct variant WasEnrolled")
    else if tag = "Error" then
      match body with
      | .obj kvs => do
          let reason ← getField kvs "reason" >>= asStr
          .ok (.error reason)
      | _ => .error (.typeMismatch "struct variant Error")
    else .error (.unknownVariant tag)
  | .obj _ => .error (.invalidValue "map with a single key")
  | _ => .error (.typeMismatch "enum EnrollmentStatus")

/-- `Enrollment` (main.rs:136). -/
structure Enrollment where
  slug : String
  status : EnrollmentStatus

/-- Derived deserializer for `Enrollment`. -/
def decodeEnrollment : Json → Except DecodeError Enrollment
  | .obj kvs => do
      let slug ← getField kvs "slug" >>= asStr
      let status ← getField kvs "status" >>= decodeEnrollmentStatus
      .ok ⟨slug, status⟩
  | _ => .error (.typeMismatch "struct Enrollment")

/-- `Experiment` (main.rs:175); `rename_all = "camelCase"` maps the field
names to camelCase JSON keys. -/
structure Experiment where
  slug : String
  is_rollout : Bool
  is_enrollment_paused : Bool
  feature_ids : List String

/-- Derived deserializer for `Experiment`. -/
def decodeExperiment : Json → Except DecodeError Experiment
  | .obj kvs => do
      let slug ← getField kvs "slug" >>= asStr
      let isRollout ← getField kvs "isRollout" >>= asBool
      let isPaused ← getField kvs "isEnrollmentPaused" >>= asBool
      let featureIds ← getField kvs "featureIds" >>= asStrList
      .ok ⟨slug, isRollout, isPaused, featureIds⟩
  | _ => .error (.typeMismatch "struct Experiment")

/-- `ValueExt::as_json` (main.rs:19): only the `Json` value variant is
accepted; its text is parsed and mapped onto the target shape by the
deserializer `dec`; every other variant is the "Unsupported type" error. -/
def asJson {α : Type} (dec : Json → Except DecodeError α) :
    Value → Except DecodeError α
  | .json (.parseable j) => dec j
  | .json .malformed => .error .malformedJson
  | _ => .error .unsupportedType

/-- `SingleStore::get`: the value stored under a (textual) key, if any. -/
def get (t : Table) (k : String) : Option Value :=
  (t.find? (fun e => match e.1 with
    | .text s => s == k
    | .nonText _ => false)).map (fun e => e.2)

/-- `SingleStoreExt::get_as_json` (main.rs:39): absent key is `Ok(None)`,
a present key is decoded through `as_json`. -/
def getAsJson {α : Type} (dec : Json → Except DecodeError α)
    (t : Table) (k : String) : Except DecodeError (Option α) :=
  match get t k with
  | none => .ok none
  | some v => (asJson dec v).map some

/-- Errors of `dump_meta`, mirroring its anyhow contexts: the version decode
context "could not read database version", "database version missing", the
missing opt-in contexts (the string the code attaches), a raw participation
decode error (propagated with no context), and the
"Unsupported database version" bail. -/
inductive MetaError where
  | couldNotReadVersion (cause : DecodeError)
  | versionMissing
  | keyMissing (msg : String)
  | keyDecode (cause : DecodeError)
  | unsupportedVersion (v : Nat)

/-- The resolution portion of `dump_meta` (main.rs:74): read `db_version`
as u16, branch on it, and produce the version and the two participation
flags (the values the code goes on to print). -/
def dumpMeta (t : Table) : Except MetaError (Nat × Bool × Bool) :=
  match getAsJson asU16 t "db_version" with
  | .error e => .error (.couldNotReadVersion e)
  | .ok none => .error .versionMissing
  | .ok (some v) =>
    if v = 1 ∨ v = 2 then
      match getAsJson asBool t "user-opt-in" with
      | .error e => .error (.keyDecode e)
      | .ok none => .error (.keyMissing "opt-in key missing")
      | .ok (some b) => .ok (v, b, b)
    else if v = 3 then
      match getAsJson asBool t "user-opt-in-experiments" with
      | .error e => .error (.keyDecode e)
      | .ok none => .error (.keyMissing "experiment opt-in key missing")
      | .ok (some ep) =>
        match getAsJson asBool t "user-opt-in-rollouts" with
        | .error e => .error (.keyDecode e)
        | .ok none => .error (.keyMissing "rollout opt-in key missing")
        | .ok (some rp) => .ok (v, ep, rp)
    else .error (.unsupportedVersion v)

/-- The read portion of `dump_enrollments` (main.rs:141): decode every
entry value, short-circuiting on the first failure exactly as
`collect::<anyhow::Result<_>>` does.  A decode failure is propagated as-is
(the code attaches no table or key context to it). -/
def dumpEnrollments (t : Table) : Except DecodeError (List Enrollment) :=
  t.mapM (fun e => asJson decodeEnrollment e.2)

/-- The read portion of `dump_experiments` (main.rs:182). -/
def dumpExperiments (t : Table) : Except DecodeError (List Experiment) :=
  t.mapM (fun e => asJson decodeExperiment e.2)

/-- Errors of `dump_updates`: a key that is not valid UTF-8, or a value
decode failure. -/
inductive UpdateError where
  | keyNotUtf8
  | valueError (cause : DecodeError)

/-- One entry of the updates table (main.rs:229): the key must be valid
text, the value must be a JSON value decoding into `serde_json::Value`,
i.e. any parseable document; the key is checked first. -/
def decodeUpdateEntry (e : RawKey × Value) :
    Except UpdateError (String × Json) :=
  match e.1 with
  | .nonText _ => .error .keyNotUtf8
  | .text s =>
    match asJson (fun j => .ok j) e.2 with
    | .error c => .error (.valueError c)
    | .ok j => .ok (s, j)

/-- The read portion of `dump_updates` (main.rs:224). -/
def dumpUpdates (t : Table) : Except UpdateError (List (String × Json)) :=
  t.mapM decodeUpdateEntry

/-- The first rendered line of the enrollments section (main.rs:153). -/
def enrollmentsHeader (es : List Enrollment) : String :=
  if es.isEmpty then "No enrollments" else "Enrollments:"

/-- The first rendered line of the experiments section (main.rs:194). -/
def experimentsHeader (es : List Experiment) : String :=
  if es.isEmpty then "No experiments" else "Experiments:"

/-- The first rendered line of the updates section (main.rs:234); note the
placeholder literally reuses "No experiments". -/
def updatesHeader (es : List (String × Json)) : String :=
  if es.isEmpty then "No experiments" else "Experiments:"

/-- A legacy-layout metadata store used as the concrete witness for C1. -/
def legacyStore : Table :=
  [(.text "db_version", .json (.parseable (.int 1))),
   (.text "user-opt-in", .json (.parseable (.bool true)))]

/-- A version-3 metadata store used as the concrete witness for C2. -/
def v3Store : Table :=
  [(.text "db_version", .json (.parseable (.int 3))),
   (.text "user-opt-in-experiments", .json (.parseable (.bool true))),
   (.text "user-opt-in-rollouts", .json (.parseable (.bool false)))]

/-- C1: for a store whose metadata holds schema version 1 or 2, resolving
participation reads the single legacy key `user-opt-in` and returns both
flags equal to its boolean value; if the legacy key is absent the
resolution fails with the missing-key error. -/
theorem meta_legacy_versions (t : Table) (v : Nat)
    (hv : getAsJson asU16 t "db_version" = .ok (some v))
    (h12 : v = 1 ∨ v = 2) :
    (∀ b : Bool, getAsJson asBool t "user-opt-in" = .ok (some b) →
        dumpMeta t = .ok (v, b, b)) ∧
    (getAsJson asBool t "user-opt-in" = .ok none →
        dumpMeta t = .error (.keyMissing "opt-in key missing")) := by
  constructor
  · intro b hb
    rcases h12 with rfl | rfl <;> simp [dumpMeta, hv, hb]
  · intro hb
    rcases h12 with rfl | rfl <;> simp [dumpMeta, hv, hb]

/-- Witness for C1: on a concrete version-1 store with the legacy flag set
to true, resolution yields both flags true. -/
theorem meta_legacy_versions_witness :
    dumpMeta legacyStore = .ok (1, true, true) :=
  (meta_legacy_versions legacyStore 1 rfl (Or.inl rfl)).1 true rfl

/-- C2: for a store whose metadata holds schema version 3, the two opt-in
keys are read independently (the flags may differ), and the absence of
either required key fails with the missing-key error naming that key. -/
theorem meta_version3 (t : Table)
    (hv : getAsJson asU16 t "db_version" = .ok (some 3)) :
    (∀ ep rp : Bool,
        getAsJson asBool t "user-opt-in-experiments" = .ok (some ep) →
        getAsJson asBool t "user-opt-in-rollouts" = .ok (some rp) →
        dumpMeta t = .ok (3, ep, rp)) ∧
    (getAsJson asBool t "user-opt-in-experiments" = .ok none →
        dumpMeta t = .error (.keyMissing "experiment opt-in key missing")) ∧
    (∀ ep : Bool,
        getAsJson asBool t "user-opt-in-experiments" = .ok (some ep) →
        getAsJson asBool t "user-opt-in-rollouts" = .ok none →
        dumpMeta t = .error (.keyMissing "rollout opt-in key missing")) := by
  refine ⟨fun ep rp he hr => ?_, fun he => ?_, fun ep he hr => ?_⟩ <;>
    simp [dumpMeta, hv, he, *]

/-- Witness for C2: on a concrete version-3 store with experiment opt-in
true and rollout opt-in false, resolution yields the differing pair. -/
theorem meta_version3_witness :
    dumpMeta v3Store = .ok (3, true, false) :=
  (meta_version3 v3Store rfl).1 true false rfl rfl

/-- C3: a schema version outside {1, 2, 3} makes participation resolution
fail with the unsupported-version error; no flags are produced. -/
theorem meta_unsupported_version (t : Table) (v : Nat)
    (hv : getAsJson asU16 t "db_version" = .ok (some v))
    (h1 : v ≠ 1) (h2 : v ≠ 2) (h3 : v ≠ 3) :
    dumpMeta t = .error (.unsupportedVersion v) := by
  simp [dumpMeta, hv, h1, h2, h3]

/-- Witness for C3: a store holding version 4 fails with the
unsupported-version error. -/
theorem meta_unsupported_version_witness :
    dumpMeta [(.text "db_version", .json (.parseable (.int 4)))] =
      .error (.unsupportedVersion 4) :=
  meta_unsupported_version _ 4 rfl (by decide) (by decide) (by decide)

/-- Bind on a successful `Except` computation just applies the
continuation. -/
theorem exceptBind_ok {ε α β : Type} (a : α) (f : α → Except ε β) :
    (Except.ok a >>= f : Except ε β) = f a := rfl

/-- Bind on a failed `Except` computation keeps the error. -/
theorem exceptBind_err {ε α β : Type} (e : ε) (f : α → Except ε β) :
    (Except.error e >>= f : Except ε β) = .error e := rfl

/-- Decoding a u64 from an integral JSON number below 2^64 succeeds. -/
theorem asU64_int (n : Nat) (h : n < 18446744073709551616) :
    asU64 (.int n) = .ok n := by
  show asU64 (.int (.ofNat n)) = .ok n
  simp [asU64, h]

/-- C4: Enrollment Status is a closed five-variant type: each of the five
tags with its required fields decodes to the record with exactly those field
values, and any tag outside the five is an unknown-variant decode error,
never a default shape. -/
theorem enrollmentStatus_closed :
    (∀ reason branch : String,
        decodeEnrollmentStatus (.obj [("Enrolled",
            .obj [("reason", .str reason), ("branch", .str branch)])]) =
          .ok (.enrolled reason branch)) ∧
    (∀ reason : String,
        decodeEnrollmentStatus (.obj [("NotEnrolled",
            .obj [("reason", .str reason)])]) =
          .ok (.notEnrolled reason)) ∧
    (∀ reason branch : String,
        decodeEnrollmentStatus (.obj [("Disqualified",
            .obj [("reason", .str reason), ("branch", .str branch)])]) =
          .ok (.disqualified reason branch)) ∧
    (∀ (branch : String) (endedAt : Nat), endedAt < 18446744073709551616 →
        decodeEnrollmentStatus (.obj [("WasEnrolled",
            .obj [("branch", .str branch),
                  ("experiment_ended_at", .int endedAt)])]) =
          .ok (.wasEnrolled branch endedAt)) ∧
    (∀ reason : String,
        decodeEnrollmentStatus (.obj [("Error",
            .obj [("reason", .str reason)])]) =
          .ok (.error reason)) ∧
    (∀ (tag : String) (body : Json),
        tag ≠ "Enrolled" → tag ≠ "NotEnrolled" → tag ≠ "Disqualified" →
        tag ≠ "WasEnrolled" → tag ≠ "Error" →
        decodeEnrollmentStatus (.obj [(tag, body)]) =
          .error (.unknownVariant tag)) := by
  refine ⟨fun reason branch => ?_, fun reason => ?_, fun reason branch => ?_,
          fun branch endedAt h => ?_, fun reason => ?_,
          fun tag body h1 h2 h3 h4 h5 => ?_⟩
  · have e : decodeEnrollmentStatus (.obj [("Enrolled",
        .obj [("reason", .str reason), ("branch", .str branch)])]) =
        ((getField [("reason", Json.str reason),
                    ("branch", Json.str branch)] "reason" >>= asStr) >>=
          fun r =>
            (getField [("reason", Json.str reason),
                       ("branch", Json.str branch)] "branch" >>= asStr) >>=
          fun b => Except.ok (EnrollmentStatus.enrolled r b)) := rfl
    rw [e,
        show getField [("reason", Json.str reason),
                       ("branch", Json.str branch)] "reason" =
          Except.ok (Json.str reason) from rfl,
        show getField [("reason", Json.str reason),
                       ("branch", Json.str branch)] "branch" =
          Except.ok (Json.str branch) from rfl]
    simp only [exceptBind_ok, asStr]
  · have e : decodeEnrollmentStatus (.obj [("NotEnrolled",
        .obj [("reason", .str reason)])]) =
        ((getField [("reason", Json.str reason)] "reason" >>= asStr) >>=
          fun r => Except.ok (EnrollmentStatus.notEnrolled r)) := rfl
    rw [e,
        show getField [("reason", Json.str reason)] "reason" =
          Except.ok (Json.str reason) from rfl]
    simp only [exceptBind_ok, asStr]
  · have e : decodeEnrollmentStatus (.obj [("Disqualified",
        .obj [("reason", .str reason), ("branch", .str branch)])]) =
        ((getField [("reason", Json.str reason),
                    ("branch", Json.str branch)] "reason" >>= asStr) >>=
          fun r =>
            (getField [("reason", Json.str reason),
                       ("branch", Json.str branch)] "branch" >>= asStr) >>=
          fun b => Except.ok (EnrollmentStatus.disqualified r b)) := rfl
    rw [e,
        show getField [("reason", Json.str reason),
                       ("branch", Json.str branch)] "reason" =
          Except.ok (Json.str reason) from rfl,
        show getField [("reason", Json.str reason),
                       ("branch", Json.str branch)] "branch" =
          Except.ok (Json.str branch) from rfl]
    simp only [exceptBind_ok, asStr]
  · have e : decodeEnrollmentStatus (.obj [("WasEnrolled",
        .obj [("branch", .str branch),
              ("experiment_ended_at", .int endedAt)])]) =
        ((getField [("branch", Json.str branch),
                    ("experiment_ended_at", Json.int endedAt)] "branch" >>=
            asStr) >>= fun b =>
          (getField [("branch", Json.str branch),
                     ("experiment_ended_at", Json.int endedAt)]
              "experiment_ended_at" >>= asU64) >>= fun t =>
          Except.ok (EnrollmentStatus.wasEnrolled b t)) := rfl
    rw [e,
        show getField [("branch", Json.str branch),
                       ("experiment_ended_at", Json.int endedAt)] "branch" =
          Except.ok (Json.str branch) from rfl,
        show getField [("branch", Json.str branch),
                       ("experiment_ended_at", Json.int endedAt)]
            "experiment_ended_at" = Except.ok (Json.int endedAt) from rfl]
    simp only [exceptBind_ok, asStr]
    rw [asU64_int endedAt h, exceptBind_ok]
  · have e : decodeEnrollmentStatus (.obj [("Error",
        .obj [("reason", .str reason)])]) =
        ((getField [("reason", Json.str reason)] "reason" >>= asStr) >>=
          fun r => Except.ok (EnrollmentStatus.error r)) := rfl
    rw [e,
        show getField [("reason", Json.str reason)] "reason" =
          Except.ok (Json.str reason) from rfl]
    simp only [exceptBind_ok, asStr]
  · simp [decodeEnrollmentStatus, h1, h2, h3, h4, h5]

/-- Witness for C4: the spec's example payload, tag Enrolled with reason
"Qualified" and branch "treatment", round-trips, and the foreign tag
"Bogus" fails with an unknown-variant error. -/
theorem enrollmentStatus_closed_witness :
    decodeEnrollmentStatus (.obj [("Enrolled",
        .obj [("reason", .str "Qualified"), ("branch", .str "treatment")])]) =
      .ok (.enrolled "Qualified" "treatment") ∧
    decodeEnrollmentStatus (.obj [("Bogus", .obj [])]) =
      .error (.unknownVariant "Bogus") :=
  ⟨enrollmentStatus_closed.1 "Qualified" "treatment",
   enrollmentStatus_closed.2.2.2.2.2 "Bogus" (.obj []) (by decide)
     (by decide) (by decide) (by decide) (by decide)⟩

/-- Whether a raw value carries the structured-text (JSON) tag. -/
def isJsonVariant : Value → Bool
  | .json _ => true
  | _ => false

/-- C6: a raw value whose tag is not the structured-text (JSON) variant
fails to decode, for every target shape, with the unsupported-encoding
error; decoding succeeds only for a parseable JSON value whose document the
target deserializer accepts. -/
theorem asJson_requires_json_variant :
    (∀ (α : Type) (dec : Json → Except DecodeError α) (v : Value),
        isJsonVariant v = false → asJson dec v = .error .unsupportedType) ∧
    (∀ (α : Type) (dec : Json → Except DecodeError α) (v : Value) (r : α),
        asJson dec v = .ok r →
        ∃ j : Json, v = .json (.parseable j) ∧ dec j = .ok r) := by
  constructor
  · intro α dec v hv
    cases v <;> simp_all [asJson, isJsonVariant]
  · intro α dec v r hv
    match v with
    | .json (.parseable j) => exact ⟨j, rfl, hv⟩
    | .json .malformed => simp [asJson] at hv
    | .bool _ | .u64 _ | .i64 _ | .f64 | .instant _ | .uuid _ | .str _
    | .blob _ => simp [asJson] at hv

/-- Witness for C6: a u64-tagged raw value fails to decode as a bool with
the unsupported-encoding error. -/
theorem asJson_requires_json_variant_witness :
    asJson asBool (.u64 7) = .error .unsupportedType :=
  asJson_requires_json_variant.1 Bool asBool (.u64 7) rfl

/-- C7: a table with zero entries is not an error: enrollments and
experiments yield the empty sequence and render their no-records line, and
the empty updates table renders the reused literal "No experiments". -/
theorem empty_tables_ok :
    dumpEnrollments [] = .ok [] ∧ enrollmentsHeader [] = "No enrollments" ∧
    dumpExperiments [] = .ok [] ∧ experimentsHeader [] = "No experiments" ∧
    dumpUpdates [] = .ok [] ∧ updatesHeader [] = "No experiments" :=
  ⟨rfl, rfl, rfl, rfl, rfl, rfl⟩

/-- `mapM` over `Except` aborts with the first failing element's error when
everything before it succeeds: no partial list survives. -/
theorem mapM_ok_prefix_error {α β ε : Type} (f : α → Except ε β)
    (pre : List α) (x : α) (post : List α) (c : ε)
    (hpre : ∀ a ∈ pre, ∃ b, f a = .ok b) (hx : f x = .error c) :
    (pre ++ x :: post).mapM f = .error c := by
  induction pre with
  | nil =>
    rw [List.nil_append, List.mapM_cons, hx]
    rfl
  | cons a as ih =>
    obtain ⟨b, hb⟩ := hpre a (List.mem_cons_self a as)
    have h2 := ih (fun y hy => hpre y (List.mem_cons_of_mem a hy))
    rw [List.cons_append, List.mapM_cons, hb, exceptBind_ok, h2]
    rfl

/-- Counterexample to C5 as stated: the claim says the reported error
identifies the key of the offending entry, but two enrollment stores that
differ only in the offending entry's key produce the very same error value,
so the error cannot identify the key. -/
theorem table_error_same_for_distinct_keys :
    dumpEnrollments [(.text "key-a", .json (.parseable .null))] =
      .error (.typeMismatch "struct Enrollment") ∧
    dumpEnrollments [(.text "key-b", .json (.parseable .null))] =
      .error (.typeMismatch "struct Enrollment") :=
  ⟨rfl, rfl⟩

/-- C5 (amended): if any single entry of the enrollments or experiments
table fails to decode, the whole table read fails with that entry's decode
error — no partial sequence of the previously decoded records is returned —
but the error is the underlying cause alone, without the offending key. -/
theorem table_read_aborts_whole (pre post : Table) (e : RawKey × Value)
    (c : DecodeError) :
    ((∀ x ∈ pre, ∃ r, asJson decodeEnrollment x.2 = .ok r) →
      asJson decodeEnrollment e.2 = .error c →
      dumpEnrollments (pre ++ e :: post) = .error c) ∧
    ((∀ x ∈ pre, ∃ r, asJson decodeExperiment x.2 = .ok r) →
      asJson decodeExperiment e.2 = .error c →
      dumpExperiments (pre ++ e :: post) = .error c) :=
  ⟨fun hpre hx => mapM_ok_prefix_error _ pre e post c hpre hx,
   fun hpre hx => mapM_ok_prefix_error _ pre e post c hpre hx⟩

/-- Witness for C5 (amended): one valid enrollment followed by a malformed
record aborts the read with the malformed record's decode error. -/
theorem table_read_aborts_whole_witness :
    dumpEnrollments
      [(.text "good", .json (.parseable (.obj
          [("slug", .str "exp-1"),
           ("status", .obj [("NotEnrolled",
              .obj [("reason", .str "NotSelected")])])]))),
       (.text "bad", .json (.parseable .null))] =
      .error (.typeMismatch "struct Enrollment") :=
  (table_read_aborts_whole
      [(.text "good", .json (.parseable (.obj
          [("slug", .str "exp-1"),
           ("status", .obj [("NotEnrolled",
              .obj [("reason", .str "NotSelected")])])])))]
      [] (.text "bad", .json (.parseable .null))
      (.typeMismatch "struct Enrollment")).1
    (by
      intro x hx
      rw [List.mem_singleton] at hx
      subst hx
      exact ⟨⟨"exp-1", .notEnrolled "NotSelected"⟩, rfl⟩)
    rfl

/-- C8: the updates reader checks only the envelope: an entry whose key is
not valid text fails the whole read with the key decode error, an entry
whose value is not a parseable structured-text value fails with the value
decode error, and any sequence of text keys paired with parseable JSON
documents is accepted as-is, whatever the documents' internal shape. -/
theorem updates_envelope_only :
    (∀ (pre post : Table) (id : Nat) (v : Value),
        (∀ x ∈ pre, ∃ r, decodeUpdateEntry x = .ok r) →
        dumpUpdates (pre ++ (.nonText id, v) :: post) =
          .error .keyNotUtf8) ∧
    (∀ (pre post : Table) (s : String) (v : Value) (c : DecodeError),
        (∀ x ∈ pre, ∃ r, decodeUpdateEntry x = .ok r) →
        asJson (fun j => .ok j) v = .error c →
        dumpUpdates (pre ++ (.text s, v) :: post) =
          .error (.valueError c)) ∧
    (∀ entries : List (String × Json),
        dumpUpdates (entries.map
          (fun e => (.text e.1, .json (.parseable e.2)))) = .ok entries) := by
  refine ⟨fun pre post id v hpre => ?_,
          fun pre post s v c hpre hv => ?_,
          fun entries => ?_⟩
  · exact mapM_ok_prefix_error _ pre _ post _ hpre rfl
  · refine mapM_ok_prefix_error _ pre _ post _ hpre ?_
    simp [decodeUpdateEntry, hv]
  · induction entries with
    | nil => rfl
    | cons a as ih =>
      unfold dumpUpdates at ih ⊢
      rw [List.map_cons, List.mapM_cons,
          show decodeUpdateEntry (.text a.1, .json (.parseable a.2)) =
            .ok (a.1, a.2) from rfl,
          exceptBind_ok, ih, exceptBind_ok]
      rfl

/-- Witness for C8: a two-entry updates table whose second key is not text
fails with the key decode error even though its value is fine. -/
theorem updates_envelope_only_witness :
    dumpUpdates [(.text "k", .json (.parseable (.bool true))),
                 (.nonText 0, .json (.parseable .null))] =
      .error .keyNotUtf8 :=
  updates_envelope_only.1 [(.text "k", .json (.parseable (.bool true)))]
    [] 0 (.json (.parseable .null))
    (by
      intro x hx
      rw [List.mem_singleton] at hx
      subst hx
      exact ⟨("k", .bool true), rfl⟩)

/-- A required-field lookup depends only on the entries carrying that
field's name. -/
theorem getField_congr (kvs₁ kvs₂ : List (String × Json)) (name : String)
    (h : kvs₁.filter (fun p => p.1 == name) =
      kvs₂.filter (fun p => p.1 == name)) :
    getField kvs₁ name = getField kvs₂ name := by
  unfold getField
  rw [h]

/-- Enrollment decoding depends only on the `slug` and `status` entries. -/
theorem decodeEnrollment_fields_congr (kvs₁ kvs₂ : List (String × Json))
    (h : ∀ n ∈ ["slug", "status"],
      kvs₁.filter (fun p => p.1 == n) = kvs₂.filter (fun p => p.1 == n)) :
    decodeEnrollment (.obj kvs₁) = decodeEnrollment (.obj kvs₂) := by
  have e1 : decodeEnrollment (.obj kvs₁) =
      ((getField kvs₁ "slug" >>= asStr) >>= fun s =>
        (getField kvs₁ "status" >>= decodeEnrollmentStatus) >>= fun st =>
        Except.ok ⟨s, st⟩) := rfl
  have e2 : decodeEnrollment (.obj kvs₂) =
      ((getField kvs₂ "slug" >>= asStr) >>= fun s =>
        (getField kvs₂ "status" >>= decodeEnrollmentStatus) >>= fun st =>
        Except.ok ⟨s, st⟩) := rfl
  rw [e1, e2, getField_congr kvs₁ kvs₂ "slug" (h "slug" (by simp)),
      getField_congr kvs₁ kvs₂ "status" (h "status" (by simp))]

/-- Experiment decoding depends only on its four camelCase entries. -/
theorem decodeExperiment_fields_congr (kvs₁ kvs₂ : List (String × Json))
    (h : ∀ n ∈ ["slug", "isRollout", "isEnrollmentPaused", "featureIds"],
      kvs₁.filter (fun p => p.1 == n) = kvs₂.filter (fun p => p.1 == n)) :
    decodeExperiment (.obj kvs₁) = decodeExperiment (.obj kvs₂) := by
  have e1 : decodeExperiment (.obj kvs₁) =
      ((getField kvs₁ "slug" >>= asStr) >>= fun s =>
        (getField kvs₁ "isRollout" >>= asBool) >>= fun ro =>
        (getField kvs₁ "isEnrollmentPaused" >>= asBool) >>= fun pd =>
        (getField kvs₁ "featureIds" >>= asStrList) >>= fun fs =>
        Except.ok ⟨s, ro, pd, fs⟩) := rfl
  have e2 : decodeExperiment (.obj kvs₂) =
      ((getField kvs₂ "slug" >>= asStr) >>= fun s =>
        (getField kvs₂ "isRollout" >>= asBool) >>= fun ro =>
        (getField kvs₂ "isEnrollmentPaused" >>= asBool) >>= fun pd =>
        (getField kvs₂ "featureIds" >>= asStrList) >>= fun fs =>
        Except.ok ⟨s, ro, pd, fs⟩) := rfl
  rw [e1, e2, getField_congr kvs₁ kvs₂ "slug" (h "slug" (by simp)),
      getField_congr kvs₁ kvs₂ "isRollout" (h "isRollout" (by simp)),
      getField_congr kvs₁ kvs₂ "isEnrollmentPaused"
        (h "isEnrollmentPaused" (by simp)),
      getField_congr kvs₁ kvs₂ "featureIds" (h "featureIds" (by simp))]

/-- A list of JSON strings decodes to the underlying strings. -/
theorem mapM_asStr_map (fs : List String) :
    (fs.map Json.str).mapM asStr = .ok fs := by
  induction fs with
  | nil => rfl
  | cons f fs ih =>
    rw [List.map_cons, List.mapM_cons,
        show asStr (Json.str f) = .ok f from rfl, exceptBind_ok, ih,
        exceptBind_ok]
    rfl

/-- C9: record decoding tolerates unknown extra fields: decoding an
enrollment or experiment object is insensitive to entries under names
outside the record shape (first two conjuncts: the result depends only on
the required-name entries), and concretely, an object holding the required
fields with correct types plus arbitrary unknown fields decodes to exactly
the record of those field values (last two conjuncts). -/
theorem decode_ignores_unknown_fields :
    (∀ kvs₁ kvs₂ : List (String × Json),
        (∀ n ∈ ["slug", "status"],
          kvs₁.filter (fun p => p.1 == n) =
            kvs₂.filter (fun p => p.1 == n)) →
        decodeEnrollment (.obj kvs₁) = decodeEnrollment (.obj kvs₂)) ∧
    (∀ kvs₁ kvs₂ : List (String × Json),
        (∀ n ∈ ["slug", "isRollout", "isEnrollmentPaused", "featureIds"],
          kvs₁.filter (fun p => p.1 == n) =
            kvs₂.filter (fun p => p.1 == n)) →
        decodeExperiment (.obj kvs₁) = decodeExperiment (.obj kvs₂)) ∧
    (∀ (s : String) (j : Json) (r : EnrollmentStatus)
        (extra : List (String × Json)),
        decodeEnrollmentStatus j = .ok r →
        (∀ q ∈ extra, q.1 ≠ "slug" ∧ q.1 ≠ "status") →
        decodeEnrollment
            (.obj (("slug", .str s) :: ("status", j) :: extra)) =
          .ok ⟨s, r⟩) ∧
    (∀ (s : String) (ro pd : Bool) (fs : List String)
        (extra : List (String × Json)),
        (∀ q ∈ extra, q.1 ≠ "slug" ∧ q.1 ≠ "isRollout" ∧
          q.1 ≠ "isEnrollmentPaused" ∧ q.1 ≠ "featureIds") →
        decodeExperiment (.obj (("slug", .str s) :: ("isRollout", .bool ro)
            :: ("isEnrollmentPaused", .bool pd)
            :: ("featureIds", .arr (fs.map .str)) :: extra)) =
          .ok ⟨s, ro, pd, fs⟩) := by
  refine ⟨decodeEnrollment_fields_congr, decodeExperiment_fields_congr,
          fun s j r extra hj hextra => ?_,
          fun s ro pd fs extra hextra => ?_⟩
  · rw [decodeEnrollment_fields_congr
        (("slug", .str s) :: ("status", j) :: extra)
        [("slug", .str s), ("status", j)] ?_]
    · have e : decodeEnrollment (.obj [("slug", Json.str s),
          ("status", j)]) =
          ((getField [("slug", Json.str s), ("status", j)] "slug" >>=
            asStr) >>= fun s0 =>
            (getField [("slug", Json.str s), ("status", j)] "status" >>=
              decodeEnrollmentStatus) >>= fun st =>
            Except.ok ⟨s0, st⟩) := rfl
      rw [e,
          show getField [("slug", Json.str s), ("status", j)] "slug" =
            Except.ok (Json.str s) from rfl,
          show getField [("slug", Json.str s), ("status", j)] "status" =
            Except.ok j from rfl]
      simp only [exceptBind_ok, asStr]
      rw [hj, exceptBind_ok]
    · intro n hn
      have hx : extra.filter (fun q => q.1 == n) = [] := by
        rw [List.filter_eq_nil_iff]
        intro q hq
        obtain ⟨h1, h2⟩ := hextra q hq
        obtain rfl | rfl := by simpa using hn
        · simp [h1]
        · simp [h2]
      obtain rfl | rfl := by simpa using hn
      all_goals simp [List.filter_cons, hx]
  · rw [decodeExperiment_fields_congr
        (("slug", .str s) :: ("isRollout", .bool ro)
          :: ("isEnrollmentPaused", .bool pd)
          :: ("featureIds", .arr (fs.map .str)) :: extra)
        [("slug", .str s), ("isRollout", .bool ro),
         ("isEnrollmentPaused", .bool pd),
         ("featureIds", .arr (fs.map .str))] ?_]
    · have e : decodeExperiment (.obj [("slug", Json.str s),
          ("isRollout", Json.bool ro), ("isEnrollmentPaused", Json.bool pd),
          ("featureIds", Json.arr (fs.map Json.str))]) =
          ((getField [("slug", Json.str s), ("isRollout", Json.bool ro),
              ("isEnrollmentPaused", Json.bool pd),
              ("featureIds", Json.arr (fs.map Json.str))] "slug" >>=
            asStr) >>= fun s0 =>
            (getField [("slug", Json.str s), ("isRollout", Json.bool ro),
                ("isEnrollmentPaused", Json.bool pd),
                ("featureIds", Json.arr (fs.map Json.str))] "isRollout" >>=
              asBool) >>= fun r0 =>
            (getField [("slug", Json.str s), ("isRollout", Json.bool ro),
                ("isEnrollmentPaused", Json.bool pd),
                ("featureIds", Json.arr (fs.map Json.str))]
                "isEnrollmentPaused" >>= asBool) >>= fun p0 =>
            (getField [("slug", Json.str s), ("isRollout", Json.bool ro),
                ("isEnrollmentPaused", Json.bool pd),
                ("featureIds", Json.arr (fs.map Json.str))] "featureIds" >>=
              asStrList) >>= fun f0 =>
            Except.ok ⟨s0, r0, p0, f0⟩) := rfl
      rw [e,
          show getField [("slug", Json.str s), ("isRollout", Json.bool ro),
              ("isEnrollmentPaused", Json.bool pd),
              ("featureIds", Json.arr (fs.map Json.str))] "slug" =
            Except.ok (Json.str s) from rfl,
          show getField [("slug", Json.str s), ("isRollout", Json.bool ro),
              ("isEnrollmentPaused", Json.bool pd),
              ("featureIds", Json.arr (fs.map Json.str))] "isRollout" =
            Except.ok (Json.bool ro) from rfl,
          show getField [("slug", Json.str s), ("isRollout", Json.bool ro),
              ("isEnrollmentPaused", Json.bool pd),
              ("featureIds", Json.arr (fs.map Json.str))]
              "isEnrollmentPaused" = Except.ok (Json.bool pd) from rfl,
          show getField [("slug", Json.str s), ("isRollout", Json.bool ro),
              ("isEnrollmentPaused", Json.bool pd),
              ("featureIds", Json.arr (fs.map Json.str))] "featureIds" =
            Except.ok (Json.arr (fs.map Json.str)) from rfl]
      simp only [exceptBind_ok, asBool, asStr]
      rw [show asStrList (Json.arr (fs.map Json.str)) =
            (fs.map Json.str).mapM asStr from rfl,
          mapM_asStr_map, exceptBind_ok]
    · intro n hn
      have hx : extra.filter (fun q => q.1 == n) = [] := by
        rw [List.filter_eq_nil_iff]
        intro q hq
        obtain ⟨h1, h2, h3, h4⟩ := hextra q hq
        obtain rfl | rfl | rfl | rfl := by simpa using hn
        · simp [h1]
        · simp [h2]
        · simp [h3]
        · simp [h4]
      obtain rfl | rfl | rfl | rfl := by simpa using hn
      all_goals simp [List.filter_cons, hx]

/-- Witness for C9: an enrollment object carrying an unknown extra field
"userId" still decodes, ignoring it. -/
theorem decode_ignores_unknown_fields_witness :
    decodeEnrollment (.obj [("slug", .str "exp-1"),
        ("status", .obj [("NotEnrolled",
          .obj [("reason", .str "NotSelected")])]),
        ("userId", .str "u-42")]) =
      .ok ⟨"exp-1", .notEnrolled "NotSelected"⟩ :=
  decode_ignores_unknown_fields.2.2.1 "exp-1"
    (.obj [("NotEnrolled", .obj [("reason", .str "NotSelected")])])
    (.notEnrolled "NotSelected") [("userId", .str "u-42")]
    (by
      rw [show decodeEnrollmentStatus (.obj [("NotEnrolled",
          .obj [("reason", .str "NotSelected")])]) =
        .ok (.notEnrolled "NotSelected") from rfl])
    (by intro q hq; rw [List.mem_singleton] at hq; subst hq; simp)

/-- C10: the stored schema version is decoded as a u16: whenever the
`db_version` value holds a JSON document that is not an integral number in
`0..=65535`, its u16 decode fails and metadata resolution stops with the
could-not-read-version error (first conjunct), the u16 decoder fails on
exactly those documents (second conjunct), and that error is distinct from
the unsupported-version error used for in-range versions outside {1,2,3}
(third conjunct). -/
theorem version_decoded_as_u16 :
    (∀ (t : Table) (j : Json) (c : DecodeError),
        get t "db_version" = some (.json (.parseable j)) →
        asU16 j = .error c →
        dumpMeta t = .error (.couldNotReadVersion c)) ∧
    (∀ j : Json,
        (∃ c, asU16 j = .error c) ↔
          ¬ ∃ n : Nat, j = .int n ∧ n < 65536) ∧
    (∀ (c : DecodeError) (v : Nat),
        MetaError.couldNotReadVersion c ≠ .unsupportedVersion v) := by
  refine ⟨fun t j c hget hj => ?_, fun j => ?_, fun c v => by simp⟩
  · have hv : getAsJson asU16 t "db_version" = .error c := by
      unfold getAsJson
      rw [hget]
      show (asU16 j).map some = .error c
      rw [hj]
      rfl
    simp [dumpMeta, hv]
  · constructor
    · rintro ⟨c, hc⟩ ⟨n, rfl, hn⟩
      rw [show ((n : Int)) = Int.ofNat n from rfl] at hc
      simp [asU16, hn] at hc
    · intro hno
      match j with
      | .int (.ofNat n) =>
        by_cases hn : n < 65536
        · exact absurd ⟨n, rfl, hn⟩ hno
        · exact ⟨.invalidValue "u16", by simp [asU16, hn]⟩
      | .int (.negSucc m) => exact ⟨.invalidValue "u16", rfl⟩
      | .null => exact ⟨.typeMismatch "u16", rfl⟩
      | .bool b => exact ⟨.typeMismatch "u16", rfl⟩
      | .frac => exact ⟨.typeMismatch "u16", rfl⟩
      | .str s => exact ⟨.typeMismatch "u16", rfl⟩
      | .arr xs => exact ⟨.typeMismatch "u16", rfl⟩
      | .obj kvs => exact ⟨.typeMismatch "u16", rfl⟩

/-- Witness for C10: a store whose version value is the JSON string
"three" fails with the could-not-read-version error, and one holding the
out-of-range number 70000 fails the same way. -/
theorem version_decoded_as_u16_witness :
    dumpMeta [(.text "db_version", .json (.parseable (.str "three")))] =
      .error (.couldNotReadVersion (.typeMismatch "u16")) ∧
    dumpMeta [(.text "db_version", .json (.parseable (.int 70000)))] =
      .error (.couldNotReadVersion (.invalidValue "u16")) :=
  ⟨version_decoded_as_u16.1 _ (.str "three") (.typeMismatch "u16") rfl rfl,
   version_decoded_as_u16.1 _ (.int 70000) (.invalidValue "u16") rfl
     (by simp [asU16])⟩

end DumpNimbus
